import Mathlib

/-!
Verification of the NexGen deviation-mining pipeline (src/app.py).

The program joins five tabular datasets on `order_id` (left joins from
`orders`), fills missing cells with `0`, derives per-row columns
(`delay`, `damage`, `cost_overrun`, `deviation`, `value_leakage`,
`root_cause`, `risk_score`) using global statistics (median and mean of
`delivery_cost`, max of `traffic_delay`), and feeds a what-if simulator
(`simulated_saving`, new baseline, ROI horizon).

Numbers are modelled as rationals.  A pandas cell that can hold either a
string or the numeric `0` produced by `df.fillna(0)` is modelled by the
sum type `Val`.  A statistic of an empty column, which pandas returns as
NaN, is modelled as `none`; comparisons against NaN (always False in
pandas) are modelled by `gtStat`.  The ROI-horizon division of line 191
divides by a numpy.float64 (pandas' `Series.sum()` returns a numpy
scalar), and numpy float division by zero does not raise: it yields an
infinity (or NaN for 0/0) with only a RuntimeWarning; this is modelled
by `npDiv` returning an `NpFloat`. -/

/-- A pandas cell value: a number, or a string.  `df.fillna(0)` puts the
number `0` into missing cells of string columns, so string-typed fields
of the unified table use this sum type. -/
inductive Val where
  | num (q : ℚ)
  | str (s : String)
deriving DecidableEq, Repr

/-- `Series.isin(list_of_strings)` on a cell: true iff the cell is one of
the given strings (a numeric cell is never equal to a string). -/
def Val.isin (v : Val) (ss : List String) : Bool :=
  ss.any (fun s => v = Val.str s)

/-- One row of `data/orders.csv` after column normalization
(`order_value_inr` renamed to `order_value`). -/
structure OrderRow where
  order_id : Nat
  order_value : ℚ
  priority : String
deriving DecidableEq, Repr

/-- One row of `data/delivery_performance.csv` after normalization
(`delivery_status`→`status`, `delivery_cost_inr`→`delivery_cost`,
`customer_rating`→`rating`). -/
structure DeliveryRow where
  order_id : Nat
  promised_delivery_days : ℚ
  actual_delivery_days : ℚ
  status : String
  delivery_cost : ℚ
  rating : ℚ
deriving DecidableEq, Repr

/-- One row of `data/routes_distance.csv` after normalization
(`traffic_delay_minutes`→`traffic_delay`). -/
structure RouteRow where
  order_id : Nat
  carrier : String
  traffic_delay : ℚ
deriving DecidableEq, Repr

/-- One row of `data/cost_breakdown.csv` after normalization. -/
structure CostRow where
  order_id : Nat
  special_handling : String
deriving DecidableEq, Repr

/-- One row of `data/customer_feedback.csv` after normalization
(`rating`→`feedback_rating`). -/
structure FeedbackRow where
  order_id : Nat
  feedback_rating : ℚ
deriving DecidableEq, Repr

/-- `left.merge(right, on=key, how="left")`: every left row is kept; a
left row with no key match yields one output row paired with `none`
(pandas: NaN cells); a left row with matches yields one output row per
matching right row. -/
def mergeLeft {α β : Type} (l : List α) (r : List β)
    (kL : α → Nat) (kR : β → Nat) : List (α × Option β) :=
  l.flatMap (fun a =>
    let ms := r.filter (fun b => decide (kR b = kL a))
    if ms.isEmpty then [(a, none)] else ms.map (fun b => (a, some b)))

/-- The joined-but-not-yet-filled row shape produced by the four chained
merges of src/app.py lines 62–65. -/
abbrev JoinedRow :=
  (((OrderRow × Option DeliveryRow) × Option RouteRow) × Option CostRow) ×
    Option FeedbackRow

/-- The merge chain of src/app.py lines 62–65:
`orders.merge(delivery).merge(routes).merge(cost).merge(feedback)`,
each a left join on `order_id`. -/
def joinAll (o : List OrderRow) (d : List DeliveryRow) (r : List RouteRow)
    (c : List CostRow) (f : List FeedbackRow) : List JoinedRow :=
  let s1 := mergeLeft o d OrderRow.order_id DeliveryRow.order_id
  let s2 := mergeLeft s1 r (fun t => t.1.order_id) RouteRow.order_id
  let s3 := mergeLeft s2 c (fun t => t.1.1.order_id) CostRow.order_id
  mergeLeft s3 f (fun t => t.1.1.1.order_id) FeedbackRow.order_id

/-- One row of the unified table after `df.fillna(0)`: numeric missing
cells become `0`, string missing cells become the numeric `0` sentinel
(`Val.num 0`). -/
structure MergedRow where
  order_id : Nat
  order_value : ℚ
  priority : String
  promised_delivery_days : ℚ
  actual_delivery_days : ℚ
  status : Val
  delivery_cost : ℚ
  rating : ℚ
  carrier : Val
  traffic_delay : ℚ
  special_handling : Val
  feedback_rating : ℚ
deriving DecidableEq, Repr

/-- `df.fillna(0)` (src/app.py line 67) applied to one joined row:
every cell that is absent because its source table had no matching
`order_id` becomes `0` (numeric `0` even in string columns). -/
def fillna (t : JoinedRow) : MergedRow :=
  { order_id := t.1.1.1.1.order_id
    order_value := t.1.1.1.1.order_value
    priority := t.1.1.1.1.priority
    promised_delivery_days :=
      match t.1.1.1.2 with
      | some d => d.promised_delivery_days
      | none => 0
    actual_delivery_days :=
      match t.1.1.1.2 with
      | some d => d.actual_delivery_days
      | none => 0
    status :=
      match t.1.1.1.2 with
      | some d => Val.str d.status
      | none => Val.num 0
    delivery_cost :=
      match t.1.1.1.2 with
      | some d => d.delivery_cost
      | none => 0
    rating :=
      match t.1.1.1.2 with
      | some d => d.rating
      | none => 0
    carrier :=
      match t.1.1.2 with
      | some r => Val.str r.carrier
      | none => Val.num 0
    traffic_delay :=
      match t.1.1.2 with
      | some r => r.traffic_delay
      | none => 0
    special_handling :=
      match t.1.2 with
      | some c => Val.str c.special_handling
      | none => Val.num 0
    feedback_rating :=
      match t.2 with
      | some f => f.feedback_rating
      | none => 0 }

/-- The unified table `df` after the merges and `df.fillna(0)`. -/
def mergedTable (o : List OrderRow) (d : List DeliveryRow)
    (r : List RouteRow) (c : List CostRow) (f : List FeedbackRow) :
    List MergedRow :=
  (joinAll o d r c f).map fillna

/-- Insert into a sorted list of rationals (ascending). -/
def insertSorted (x : ℚ) : List ℚ → List ℚ
  | [] => [x]
  | y :: ys => if x ≤ y then x :: y :: ys else y :: insertSorted x ys

/-- Sort a list of rationals ascending (insertion sort). -/
def sortQ (xs : List ℚ) : List ℚ := xs.foldr insertSorted []

/-- `Series.median()`: `none` models pandas' NaN on an empty column;
otherwise the middle element of the sorted column (odd length), or the
average of the two middle elements (even length). -/
def median? (xs : List ℚ) : Option ℚ :=
  let s := sortQ xs
  if s.length = 0 then none
  else if s.length % 2 = 1 then some (s.getD (s.length / 2) 0)
  else some ((s.getD (s.length / 2 - 1) 0 + s.getD (s.length / 2) 0) / 2)

/-- `Series.mean()`: `none` models pandas' NaN on an empty column. -/
def mean? (xs : List ℚ) : Option ℚ :=
  if xs.length = 0 then none else some (xs.sum / xs.length)

/-- `Series.max()`: `none` models pandas' NaN on an empty column. -/
def max? (xs : List ℚ) : Option ℚ :=
  match xs with
  | [] => none
  | a :: t => some (t.foldl max a)

/-- `x > stat` where the statistic may be NaN (`none`): any comparison
against NaN is False in pandas. -/
def gtStat (m : Option ℚ) (x : ℚ) : Bool :=
  match m with
  | none => false
  | some q => decide (q < x)

/-- Root-cause tagging of src/app.py lines 91–94: start from "Normal",
then apply the three rules unconditionally in sequence, each overwriting
the previous assignment (last matching rule wins). -/
def root_cause (r : MergedRow) : String :=
  let rc0 := "Normal"
  let rc1 := if 2 < r.traffic_delay then "Traffic" else rc0
  let rc2 := if r.carrier.isin ["GlobalTransit"] then "Carrier Reliability" else rc1
  if r.special_handling = Val.str "None" then rc2 else "Handling Complexity"

/-- Risk score of src/app.py lines 99–103; `none` when a global
statistic is NaN (empty table), in which case the whole expression is
NaN in pandas. -/
def risk_score (meanCost maxTraffic : Option ℚ) (r : MergedRow) : Option ℚ :=
  match meanCost, maxTraffic with
  | some mc, some mt =>
      some ((4 / 10) * (r.actual_delivery_days / (r.promised_delivery_days + 1)) +
            (3 / 10) * (r.delivery_cost / (mc + 1)) +
            (3 / 10) * (r.traffic_delay / (mt + 1)))
  | _, _ => none

/-- One row of the unified table together with all derived columns. -/
structure ProcRow where
  row : MergedRow
  delay : Bool
  damage : Bool
  cost_overrun : Bool
  deviation : Bool
  value_leakage : ℚ
  root_cause : String
  risk_score : Option ℚ
deriving DecidableEq, Repr

/-- Per-row derivations of src/app.py lines 72–103, given the three
global statistics (median and mean of `delivery_cost`, max of
`traffic_delay`).  `value_leakage` starts at 0 and accumulates the
masked additions of lines 81–86. -/
def enrich (med meanCost maxTraffic : Option ℚ) (r : MergedRow) : ProcRow :=
  let delay := decide (r.promised_delivery_days < r.actual_delivery_days)
  let damage := r.status.isin ["Damaged", "Wrong Item"]
  let cost_overrun := gtStat med r.delivery_cost
  { row := r
    delay := delay
    damage := damage
    cost_overrun := cost_overrun
    deviation := delay || damage || cost_overrun
    value_leakage :=
      (if delay then (1 / 10) * r.order_value else 0) +
      (if damage then (2 / 10) * r.order_value else 0) +
      (match med with
       | none => 0
       | some m => if m < r.delivery_cost then r.delivery_cost - m else 0)
    root_cause := root_cause r
    risk_score := risk_score meanCost maxTraffic r }

/-- The full derivation pipeline: join, fill, then derive every column,
with the three global statistics each computed once over the whole
unified table. -/
def pipeline (o : List OrderRow) (d : List DeliveryRow) (r : List RouteRow)
    (c : List CostRow) (f : List FeedbackRow) : List ProcRow :=
  let M := mergedTable o d r c f
  let med := median? (M.map MergedRow.delivery_cost)
  let mc := mean? (M.map MergedRow.delivery_cost)
  let mt := max? (M.map MergedRow.traffic_delay)
  M.map (enrich med mc mt)

/-- `base_leakage = df["value_leakage"].sum()` (src/app.py line 180). -/
def base_leakage (t : List ProcRow) : ℚ :=
  (t.map ProcRow.value_leakage).sum

/-- Simulator formula of src/app.py lines 182–186. -/
def simulated_saving (bl delay_reduction damage_reduction route_saving : ℚ) : ℚ :=
  bl * (delay_reduction / 100 * (4 / 10) +
        damage_reduction / 100 * (4 / 10) +
        route_saving / 100 * (2 / 10))

/-- "New Leakage Baseline" metric of src/app.py line 190. -/
def new_baseline (bl saving : ℚ) : ℚ := bl - saving

/-- A numpy float64 result: a finite value, or the non-finite values a
zero-divisor division produces.  numpy float division by zero does not
raise an exception: positive/0 is `inf`, negative/0 is `-inf`, 0/0 is
NaN, each with only a RuntimeWarning. -/
inductive NpFloat where
  | finite (q : ℚ)
  | posInf
  | negInf
  | nan
deriving DecidableEq, Repr

/-- numpy float64 division — the semantics governing src/app.py
line 191, whose divisor `simulated_saving` is a numpy.float64 because
`base_leakage = df["value_leakage"].sum()` is a numpy scalar: a zero
divisor yields an infinity or NaN instead of raising. -/
def npDiv (a b : ℚ) : NpFloat :=
  if b = 0 then
    if 0 < a then NpFloat.posInf
    else if a < 0 then NpFloat.negInf
    else NpFloat.nan
  else NpFloat.finite (a / b)

/-- "ROI Horizon" metric of src/app.py line 191: the literal
`100000/simulated_saving` with numpy float semantics — no guard around
the division (`round(inf, 1)` is `inf`, displayed "inf Months"). -/
def roi_horizon (saving : ℚ) : NpFloat :=
  npDiv 100000 saving

/-- "Avg Customer Rating" metric of src/app.py line 124:
`df["rating"].mean()`; `none` models the NaN shown on an empty table. -/
def avg_rating (t : List ProcRow) : Option ℚ :=
  mean? (t.map (fun p => p.row.rating))

/-! ## Structural lemmas about the merge chain -/

theorem mergeLeft_nil {α β : Type} (r : List β) (kL : α → Nat) (kR : β → Nat) :
    mergeLeft [] r kL kR = [] := rfl

theorem mergeLeft_cons {α β : Type} (a : α) (l : List α) (r : List β)
    (kL : α → Nat) (kR : β → Nat) :
    mergeLeft (a :: l) r kL kR =
      (let ms := r.filter (fun b => decide (kR b = kL a))
       if ms.isEmpty then [(a, none)] else ms.map (fun b => (a, some b))) ++
      mergeLeft l r kL kR := by
  simp only [mergeLeft, List.flatMap_cons]

/-- Every output row of a left merge carries a left row, and its right
component is either absent or an actual right row whose key matches. -/
theorem mem_mergeLeft {α β : Type} {l : List α} {r : List β} {kL : α → Nat}
    {kR : β → Nat} {x : α × Option β} (h : x ∈ mergeLeft l r kL kR) :
    x.1 ∈ l ∧ (x.2 = none ∨ ∃ b, b ∈ r ∧ x.2 = some b ∧ kR b = kL x.1) := by
  simp only [mergeLeft, List.mem_flatMap] at h
  obtain ⟨a, ha, hx⟩ := h
  by_cases he : (r.filter (fun b => decide (kR b = kL a))).isEmpty = true
  · rw [if_pos he] at hx
    simp only [List.mem_singleton] at hx
    subst hx
    exact ⟨ha, Or.inl rfl⟩
  · rw [if_neg he] at hx
    simp only [List.mem_map] at hx
    obtain ⟨b, hb, hxb⟩ := hx
    have hb' := List.mem_filter.mp hb
    subst hxb
    refine ⟨ha, Or.inr ⟨b, hb'.1, rfl, ?_⟩⟩
    simpa using hb'.2

/-- With pairwise-distinct keys on the right table, at most one right
row matches any key. -/
theorem filter_key_length_le_one {β : Type} {r : List β} {kR : β → Nat}
    (h : (r.map kR).Nodup) (k : Nat) :
    (r.filter (fun b => decide (kR b = k))).length ≤ 1 := by
  induction r with
  | nil => simp
  | cons b r ih =>
    simp only [List.map_cons, List.nodup_cons] at h
    rw [List.filter_cons]
    by_cases hb : kR b = k
    · have hnil : r.filter (fun x => decide (kR x = k)) = [] := by
        rw [List.filter_eq_nil_iff]
        intro x hx hxk
        simp only [decide_eq_true_eq] at hxk
        exact h.1 (by
          rw [hb, ← hxk]
          exact List.mem_map.mpr ⟨x, hx, rfl⟩)
      simp [hb, hnil]
    · simp only [decide_eq_true_eq, hb, if_false]
      exact ih h.2

/-- With pairwise-distinct keys on the right table, a left merge keeps
exactly the left rows, in order. -/
theorem mergeLeft_map_fst {α β : Type} {l : List α} {r : List β}
    {kL : α → Nat} {kR : β → Nat} (h : (r.map kR).Nodup) :
    (mergeLeft l r kL kR).map Prod.fst = l := by
  induction l with
  | nil => rfl
  | cons a l ih =>
    rw [mergeLeft_cons, List.map_append, ih]
    by_cases he : (r.filter (fun b => decide (kR b = kL a))).isEmpty = true
    · simp [he]
    · have hlen : (r.filter (fun b => decide (kR b = kL a))).length = 1 := by
        refine le_antisymm (filter_key_length_le_one h _) ?_
        have : r.filter (fun b => decide (kR b = kL a)) ≠ [] := by
          intro hnil
          exact he (by simp [hnil])
        exact Nat.one_le_iff_ne_zero.mpr (by
          intro h0
          exact this (List.length_eq_zero.mp h0))
      obtain ⟨b, hb⟩ := List.length_eq_one.mp hlen
      simp [he, hb]

theorem map_fst_comp {α β γ : Type} {X : List (α × β)} {Y : List α}
    (h : X.map Prod.fst = Y) (g : α → γ) :
    X.map (fun t => g t.1) = Y.map g := by
  subst h
  rw [List.map_map]
  rfl

theorem mergeLeft_map_fst_comp {α β γ : Type} {l : List α} {r : List β}
    {kL : α → Nat} {kR : β → Nat} (h : (r.map kR).Nodup) (g : α → γ) :
    (mergeLeft l r kL kR).map (fun t => g t.1) = l.map g :=
  map_fst_comp (mergeLeft_map_fst h) g

/-- Every row of the join chain carries an `orders` row, and each of the
four right-hand components is either absent (no key match) or an actual
source row whose `order_id` equals the carried order's id. -/
theorem mem_joinAll {o : List OrderRow} {d : List DeliveryRow}
    {r : List RouteRow} {c : List CostRow} {f : List FeedbackRow}
    {t : JoinedRow} (h : t ∈ joinAll o d r c f) :
    t.1.1.1.1 ∈ o ∧
    (t.1.1.1.2 = none ∨
      ∃ b, b ∈ d ∧ t.1.1.1.2 = some b ∧ b.order_id = t.1.1.1.1.order_id) ∧
    (t.1.1.2 = none ∨
      ∃ b, b ∈ r ∧ t.1.1.2 = some b ∧ b.order_id = t.1.1.1.1.order_id) ∧
    (t.1.2 = none ∨
      ∃ b, b ∈ c ∧ t.1.2 = some b ∧ b.order_id = t.1.1.1.1.order_id) ∧
    (t.2 = none ∨
      ∃ b, b ∈ f ∧ t.2 = some b ∧ b.order_id = t.1.1.1.1.order_id) := by
  simp only [joinAll] at h
  have h4 := mem_mergeLeft h
  have h3 := mem_mergeLeft h4.1
  have h2 := mem_mergeLeft h3.1
  have h1 := mem_mergeLeft h2.1
  exact ⟨h1.1, h1.2, h2.2, h3.2, h4.2⟩

/-- With duplicate-free keys in all four right-hand tables, the join
chain keeps exactly the `orders` rows, in order. -/
theorem joinAll_map_orders (o : List OrderRow) (d : List DeliveryRow)
    (r : List RouteRow) (c : List CostRow) (f : List FeedbackRow)
    (hd : (d.map DeliveryRow.order_id).Nodup)
    (hr : (r.map RouteRow.order_id).Nodup)
    (hc : (c.map CostRow.order_id).Nodup)
    (hf : (f.map FeedbackRow.order_id).Nodup) :
    (joinAll o d r c f).map (fun t => t.1.1.1.1) = o := by
  simp only [joinAll]
  refine Eq.trans (mergeLeft_map_fst_comp hf
    (fun u : ((OrderRow × Option DeliveryRow) × Option RouteRow) × Option CostRow =>
      u.1.1.1)) ?_
  refine Eq.trans (mergeLeft_map_fst_comp hc
    (fun u : (OrderRow × Option DeliveryRow) × Option RouteRow => u.1.1)) ?_
  refine Eq.trans (mergeLeft_map_fst_comp hr
    (fun u : OrderRow × Option DeliveryRow => u.1)) ?_
  exact mergeLeft_map_fst hd

/-- Every pipeline output row is the enrichment of a joined-and-filled
row, with the three global statistics taken over the whole table. -/
theorem mem_pipeline {o : List OrderRow} {d : List DeliveryRow}
    {r : List RouteRow} {c : List CostRow} {f : List FeedbackRow}
    {p : ProcRow} (h : p ∈ pipeline o d r c f) :
    ∃ t, t ∈ joinAll o d r c f ∧
      p = enrich (median? ((mergedTable o d r c f).map MergedRow.delivery_cost))
          (mean? ((mergedTable o d r c f).map MergedRow.delivery_cost))
          (max? ((mergedTable o d r c f).map MergedRow.traffic_delay))
          (fillna t) := by
  simp only [pipeline, List.mem_map] at h
  obtain ⟨m, hm, hpm⟩ := h
  rw [mergedTable, List.mem_map] at hm
  obtain ⟨t, ht, hmt⟩ := hm
  exact ⟨t, ht, by rw [← hpm, ← hmt]⟩

theorem pipeline_cost_col (o : List OrderRow) (d : List DeliveryRow)
    (r : List RouteRow) (c : List CostRow) (f : List FeedbackRow) :
    (pipeline o d r c f).map (fun p => p.row.delivery_cost) =
      (mergedTable o d r c f).map MergedRow.delivery_cost := by
  simp only [pipeline, List.map_map]
  rfl

theorem pipeline_traffic_col (o : List OrderRow) (d : List DeliveryRow)
    (r : List RouteRow) (c : List CostRow) (f : List FeedbackRow) :
    (pipeline o d r c f).map (fun p => p.row.traffic_delay) =
      (mergedTable o d r c f).map MergedRow.traffic_delay := by
  simp only [pipeline, List.map_map]
  rfl

/-! ## Field computation lemmas for `enrich` -/

theorem enrich_row (med mc mt : Option ℚ) (r : MergedRow) :
    (enrich med mc mt r).row = r := rfl

theorem enrich_delay (med mc mt : Option ℚ) (r : MergedRow) :
    (enrich med mc mt r).delay =
      decide (r.promised_delivery_days < r.actual_delivery_days) := rfl

theorem enrich_damage (med mc mt : Option ℚ) (r : MergedRow) :
    (enrich med mc mt r).damage = r.status.isin ["Damaged", "Wrong Item"] := rfl

theorem enrich_cost_overrun (med mc mt : Option ℚ) (r : MergedRow) :
    (enrich med mc mt r).cost_overrun = gtStat med r.delivery_cost := rfl

theorem enrich_deviation (med mc mt : Option ℚ) (r : MergedRow) :
    (enrich med mc mt r).deviation =
      ((enrich med mc mt r).delay || (enrich med mc mt r).damage ||
        (enrich med mc mt r).cost_overrun) := rfl

theorem enrich_value_leakage (med mc mt : Option ℚ) (r : MergedRow) :
    (enrich med mc mt r).value_leakage =
      (if decide (r.promised_delivery_days < r.actual_delivery_days) then
        (1 / 10) * r.order_value else 0) +
      (if r.status.isin ["Damaged", "Wrong Item"] then
        (2 / 10) * r.order_value else 0) +
      (match med with
       | none => 0
       | some m => if m < r.delivery_cost then r.delivery_cost - m else 0) := rfl

theorem enrich_root_cause (med mc mt : Option ℚ) (r : MergedRow) :
    (enrich med mc mt r).root_cause = root_cause r := rfl

theorem enrich_risk_score (med mc mt : Option ℚ) (r : MergedRow) :
    (enrich med mc mt r).risk_score = risk_score mc mt r := rfl

/-! ## Concrete sample tables (used by the witness theorems) -/

def ordersW : List OrderRow :=
  [{ order_id := 1, order_value := 1000, priority := "High" },
   { order_id := 2, order_value := 500, priority := "Low" }]

def deliveryW : List DeliveryRow :=
  [{ order_id := 1, promised_delivery_days := 2, actual_delivery_days := 5,
     status := "Delivered", delivery_cost := 100, rating := 4 },
   { order_id := 2, promised_delivery_days := 3, actual_delivery_days := 3,
     status := "Damaged", delivery_cost := 50, rating := 2 }]

def routesW : List RouteRow :=
  [{ order_id := 1, carrier := "FastShip", traffic_delay := 1 },
   { order_id := 2, carrier := "GlobalTransit", traffic_delay := 5 }]

def costW : List CostRow :=
  [{ order_id := 1, special_handling := "None" }]

def feedbackW : List FeedbackRow :=
  [{ order_id := 1, feedback_rating := 4 },
   { order_id := 2, feedback_rating := 2 }]

def pipelineW : List ProcRow := pipeline ordersW deliveryW routesW costW feedbackW

def dummyRow : ProcRow :=
  { row := { order_id := 0, order_value := 0, priority := "",
             promised_delivery_days := 0, actual_delivery_days := 0,
             status := Val.num 0, delivery_cost := 0, rating := 0,
             carrier := Val.num 0, traffic_delay := 0,
             special_handling := Val.num 0, feedback_rating := 0 },
    delay := false, damage := false, cost_overrun := false, deviation := false,
    value_leakage := 0, root_cause := "", risk_score := none }

theorem getD_mem {α : Type} {l : List α} {i : Nat} (h : i < l.length) (d : α) :
    l.getD i d ∈ l := by
  rw [List.getD_eq_getElem l d h]
  exact List.getElem_mem h

/-! ## Claims -/

/-- C1: the `simulated_saving == 0` case of the ROI horizon (every
slider at its minimum) is reported as a non-computable result rather
than raising an uncaught arithmetic fault: the divisor of
src/app.py line 191 is a numpy.float64, whose division by zero yields
the infinite horizon `inf` (displayed "inf Months"), whatever the base
leakage is; any nonzero saving yields the finite `100000/saving`. -/
theorem roi_horizon_zero_sliders_infinite (bl : ℚ) :
    roi_horizon (simulated_saving bl 0 0 0) = NpFloat.posInf ∧
    ∀ s : ℚ, s ≠ 0 → roi_horizon s = NpFloat.finite (100000 / s) := by
  constructor
  · have h : simulated_saving bl 0 0 0 = 0 := by
      simp [simulated_saving]
    rw [h, roi_horizon, npDiv, if_pos rfl, if_pos (by norm_num)]
  · intro s hs
    rw [roi_horizon, npDiv, if_neg hs]

/-- Witness for C1: base leakage 1000; the all-zero-slider horizon is
`inf`, and the nonzero saving 150 gives the finite horizon 2000/3. -/
theorem roi_horizon_zero_sliders_infinite_witness :
    roi_horizon (simulated_saving 1000 0 0 0) = NpFloat.posInf ∧
    (150 : ℚ) ≠ 0 ∧ roi_horizon 150 = NpFloat.finite (100000 / 150) :=
  ⟨(roi_horizon_zero_sliders_infinite 1000).1, by norm_num,
   (roi_horizon_zero_sliders_infinite 1000).2 150 (by norm_num)⟩

/-- C8: the simulator computes
`simulated_saving = base_leakage * (delay_reduction/100*0.4 +
damage_reduction/100*0.4 + route_saving/100*0.2)` and the new baseline
`base_leakage - simulated_saving`, where `base_leakage` is the sum of
`value_leakage` over the table; at base 1000 and reductions 20/10/15
this gives 150 and 850. -/
theorem simulator_formula (t : List ProcRow) (dr dm rs : ℚ) :
    simulated_saving (base_leakage t) dr dm rs =
      (t.map ProcRow.value_leakage).sum *
        (dr / 100 * (4 / 10) + dm / 100 * (4 / 10) + rs / 100 * (2 / 10)) ∧
    new_baseline (base_leakage t) (simulated_saving (base_leakage t) dr dm rs) =
      base_leakage t - simulated_saving (base_leakage t) dr dm rs ∧
    simulated_saving 1000 20 10 15 = 150 ∧
    new_baseline 1000 (simulated_saving 1000 20 10 15) = 850 := by
  refine ⟨rfl, rfl, by norm_num [simulated_saving], ?_⟩
  norm_num [new_baseline, simulated_saving]

/-- C9: the claim says statistic-based derivations fail fast with a
descriptive error on an empty table.  In the code nothing fails: on
zero-row inputs the pipeline completes and returns an empty table, and
the median/mean/max statistics and the dashboard's average-rating metric
are NaN (modelled `none`), silently propagated rather than raised. -/
theorem empty_table_statistics_silent_nan :
    pipeline [] [] [] [] [] = [] ∧
    median? ((mergedTable [] [] [] [] []).map MergedRow.delivery_cost) = none ∧
    mean? ((mergedTable [] [] [] [] []).map MergedRow.delivery_cost) = none ∧
    max? ((mergedTable [] [] [] [] []).map MergedRow.traffic_delay) = none ∧
    avg_rating (pipeline [] [] [] [] []) = none :=
  ⟨rfl, rfl, rfl, rfl, rfl⟩

/-- C2: for every row of the unified table, `deviation` is the logical
OR of `delay`, `damage` and `cost_overrun`, where `delay` means actual
days exceed promised days, `damage` means status is "Damaged" or
"Wrong Item", and `cost_overrun` means the row's delivery cost strictly
exceeds the single global median of the `delivery_cost` column. -/
theorem deviation_is_or_of_flags (o : List OrderRow) (d : List DeliveryRow)
    (r : List RouteRow) (c : List CostRow) (f : List FeedbackRow)
    (p : ProcRow) (hp : p ∈ pipeline o d r c f) :
    p.deviation = (p.delay || p.damage || p.cost_overrun) ∧
    (p.delay = true ↔
      p.row.promised_delivery_days < p.row.actual_delivery_days) ∧
    (p.damage = true ↔
      p.row.status = Val.str "Damaged" ∨ p.row.status = Val.str "Wrong Item") ∧
    (p.cost_overrun = true ↔
      ∃ m, median? ((pipeline o d r c f).map (fun q => q.row.delivery_cost)) = some m ∧
        m < p.row.delivery_cost) := by
  obtain ⟨t, ht, hpe⟩ := mem_pipeline hp
  subst hpe
  rw [pipeline_cost_col]
  refine ⟨rfl, ?_, ?_, ?_⟩
  · simp [enrich_delay, enrich_row]
  · simp [enrich_damage, enrich_row, Val.isin]
  · rw [enrich_cost_overrun, enrich_row]
    cases hm : median? ((mergedTable o d r c f).map MergedRow.delivery_cost) with
    | none => simp [gtStat]
    | some m => simp [gtStat]

/-- C3: for every row, `value_leakage` is exactly the sum of
`0.1 * order_value` when delayed, plus `0.2 * order_value` when damaged,
plus `delivery_cost - median(delivery_cost)` when cost-overrunning,
with the same global median the classifier uses. -/
theorem value_leakage_contributions (o : List OrderRow) (d : List DeliveryRow)
    (r : List RouteRow) (c : List CostRow) (f : List FeedbackRow)
    (p : ProcRow) (hp : p ∈ pipeline o d r c f) (m : ℚ)
    (hm : median? ((pipeline o d r c f).map (fun q => q.row.delivery_cost)) = some m) :
    p.value_leakage =
      (if p.delay = true then (1 / 10) * p.row.order_value else 0) +
      (if p.damage = true then (2 / 10) * p.row.order_value else 0) +
      (if p.cost_overrun = true then p.row.delivery_cost - m else 0) := by
  obtain ⟨t, ht, hpe⟩ := mem_pipeline hp
  subst hpe
  rw [pipeline_cost_col] at hm
  rw [enrich_value_leakage, hm]
  simp only [enrich_delay, enrich_damage, enrich_cost_overrun, enrich_row, hm, gtStat]
  simp

/-- C4: with non-negative order values (the normal-input precondition of
the spec), every row's `value_leakage` is non-negative; in particular
the cost-overrun contribution is added only when the cost strictly
exceeds the median, so it is never negative. -/
theorem value_leakage_nonneg (o : List OrderRow) (d : List DeliveryRow)
    (r : List RouteRow) (c : List CostRow) (f : List FeedbackRow)
    (hov : ∀ x ∈ o, 0 ≤ x.order_value)
    (p : ProcRow) (hp : p ∈ pipeline o d r c f) :
    0 ≤ p.value_leakage := by
  obtain ⟨t, ht, hpe⟩ := mem_pipeline hp
  have hval : (0 : ℚ) ≤ (fillna t).order_value := hov _ (mem_joinAll ht).1
  subst hpe
  rw [enrich_value_leakage]
  refine add_nonneg (add_nonneg ?_ ?_) ?_
  · split
    · exact mul_nonneg (by norm_num) hval
    · exact le_refl 0
  · split
    · exact mul_nonneg (by norm_num) hval
    · exact le_refl 0
  · split
    · exact le_refl 0
    · split_ifs with hlt
      · linarith
      · exact le_refl 0

/-- C5: every row's `root_cause` is one of the four labels, and because
the three tagging rules overwrite in sequence, any row whose
`special_handling` differs from the string "None" ends up tagged
"Handling Complexity" regardless of the traffic and carrier rules. -/
theorem root_cause_classification (o : List OrderRow) (d : List DeliveryRow)
    (r : List RouteRow) (c : List CostRow) (f : List FeedbackRow)
    (p : ProcRow) (hp : p ∈ pipeline o d r c f) :
    (p.root_cause = "Normal" ∨ p.root_cause = "Traffic" ∨
     p.root_cause = "Carrier Reliability" ∨ p.root_cause = "Handling Complexity") ∧
    (p.row.special_handling ≠ Val.str "None" → p.root_cause = "Handling Complexity") := by
  obtain ⟨t, ht, hpe⟩ := mem_pipeline hp
  subst hpe
  rw [enrich_root_cause, enrich_row]
  constructor
  · simp only [root_cause]
    split_ifs <;> simp
  · intro h
    simp only [root_cause]
    rw [if_neg h]

/-- C7: every row's `risk_score` is
`0.4 * actual/(promised+1) + 0.3 * cost/(mean(cost)+1) +
0.3 * traffic/(max(traffic)+1)`, with the mean and max taken once over
the whole table's columns; nothing clamps the result. -/
theorem risk_score_formula (o : List OrderRow) (d : List DeliveryRow)
    (r : List RouteRow) (c : List CostRow) (f : List FeedbackRow)
    (p : ProcRow) (hp : p ∈ pipeline o d r c f) (mc mt : ℚ)
    (hmc : mean? ((pipeline o d r c f).map (fun q => q.row.delivery_cost)) = some mc)
    (hmt : max? ((pipeline o d r c f).map (fun q => q.row.traffic_delay)) = some mt) :
    p.risk_score = some (
      (4 / 10) * (p.row.actual_delivery_days / (p.row.promised_delivery_days + 1)) +
      (3 / 10) * (p.row.delivery_cost / (mc + 1)) +
      (3 / 10) * (p.row.traffic_delay / (mt + 1))) := by
  obtain ⟨t, ht, hpe⟩ := mem_pipeline hp
  subst hpe
  rw [pipeline_cost_col] at hmc
  rw [pipeline_traffic_col] at hmt
  rw [enrich_risk_score, hmc, hmt]
  rfl

/-- C10: an order with no matching row in the cost table gets
`special_handling` zero-filled to the number 0, which differs from the
string "None", so the tagger assigns "Handling Complexity" to it no
matter what its traffic delay and carrier are. -/
theorem missing_cost_row_tagged_handling (o : List OrderRow)
    (d : List DeliveryRow) (r : List RouteRow) (c : List CostRow)
    (f : List FeedbackRow) (p : ProcRow) (hp : p ∈ pipeline o d r c f)
    (hnc : ∀ x ∈ c, x.order_id ≠ p.row.order_id) :
    p.row.special_handling = Val.num 0 ∧
    p.row.special_handling ≠ Val.str "None" ∧
    p.root_cause = "Handling Complexity" := by
  obtain ⟨t, ht, hpe⟩ := mem_pipeline hp
  subst hpe
  rcases (mem_joinAll ht).2.2.2.1 with hnone | ⟨b, hb, _, hkey⟩
  · have hsh : (fillna t).special_handling = Val.num 0 := by
      simp [fillna, hnone]
    rw [enrich_root_cause, enrich_row]
    refine ⟨hsh, ?_, ?_⟩
    · rw [hsh]
      simp
    · simp only [root_cause]
      rw [if_neg (by rw [hsh]; simp)]
  · exact absurd hkey (hnc b hb)

/-- C6: with no duplicate `order_id` in the four non-primary tables, the
left-join chain yields exactly one unified row per `orders` row (same
count, same order, same order fields), and every cell missing for lack
of a key match is filled with `0` (numeric `0` even for the categorical
`status`, `carrier` and `special_handling` columns). -/
theorem join_preserves_orders_and_fills_zero (o : List OrderRow)
    (d : List DeliveryRow) (r : List RouteRow) (c : List CostRow)
    (f : List FeedbackRow)
    (hd : (d.map DeliveryRow.order_id).Nodup)
    (hr : (r.map RouteRow.order_id).Nodup)
    (hc : (c.map CostRow.order_id).Nodup)
    (hf : (f.map FeedbackRow.order_id).Nodup) :
    (pipeline o d r c f).length = o.length ∧
    (pipeline o d r c f).map
        (fun p => (p.row.order_id, p.row.order_value, p.row.priority)) =
      o.map (fun x => (x.order_id, x.order_value, x.priority)) ∧
    ∀ p ∈ pipeline o d r c f,
      ((∀ x ∈ d, x.order_id ≠ p.row.order_id) →
        p.row.promised_delivery_days = 0 ∧ p.row.actual_delivery_days = 0 ∧
        p.row.status = Val.num 0 ∧ p.row.delivery_cost = 0 ∧ p.row.rating = 0) ∧
      ((∀ x ∈ r, x.order_id ≠ p.row.order_id) →
        p.row.carrier = Val.num 0 ∧ p.row.traffic_delay = 0) ∧
      ((∀ x ∈ c, x.order_id ≠ p.row.order_id) →
        p.row.special_handling = Val.num 0) ∧
      ((∀ x ∈ f, x.order_id ≠ p.row.order_id) →
        p.row.feedback_rating = 0) := by
  have horder := joinAll_map_orders o d r c f hd hr hc hf
  refine ⟨?_, ?_, ?_⟩
  · have hlen : (joinAll o d r c f).length = o.length := by
      have := congrArg List.length horder
      rwa [List.length_map] at this
    simp only [pipeline, mergedTable, List.length_map]
    exact hlen
  · have hcol : (pipeline o d r c f).map
        (fun p => (p.row.order_id, p.row.order_value, p.row.priority)) =
        ((joinAll o d r c f).map (fun t => t.1.1.1.1)).map
          (fun x => (x.order_id, x.order_value, x.priority)) := by
      simp only [pipeline, mergedTable, List.map_map]
      rfl
    rw [hcol, horder]
  · intro p hp
    obtain ⟨t, ht, hpe⟩ := mem_pipeline hp
    have hmj := mem_joinAll ht
    subst hpe
    refine ⟨?_, ?_, ?_, ?_⟩
    · intro hnod
      rcases hmj.2.1 with hnone | ⟨b, hb, _, hkey⟩
      · refine ⟨?_, ?_, ?_, ?_, ?_⟩ <;> simp [enrich_row, fillna, hnone]
      · exact absurd hkey (hnod b hb)
    · intro hnor
      rcases hmj.2.2.1 with hnone | ⟨b, hb, _, hkey⟩
      · exact ⟨by simp [enrich_row, fillna, hnone], by simp [enrich_row, fillna, hnone]⟩
      · exact absurd hkey (hnor b hb)
    · intro hnoc
      rcases hmj.2.2.2.1 with hnone | ⟨b, hb, _, hkey⟩
      · simp [enrich_row, fillna, hnone]
      · exact absurd hkey (hnoc b hb)
    · intro hnof
      rcases hmj.2.2.2.2 with hnone | ⟨b, hb, _, hkey⟩
      · simp [enrich_row, fillna, hnone]
      · exact absurd hkey (hnof b hb)

/-! ## Witnesses on the concrete sample tables -/

theorem medianW_eq :
    median? (pipelineW.map (fun q => q.row.delivery_cost)) = some 75 := by
  rw [pipelineW, pipeline_cost_col]
  norm_num [mergedTable, joinAll, mergeLeft, fillna, median?, sortQ, insertSorted,
    ordersW, deliveryW, routesW, costW, feedbackW]

theorem meanW_eq :
    mean? (pipelineW.map (fun q => q.row.delivery_cost)) = some 75 := by
  rw [pipelineW, pipeline_cost_col]
  norm_num [mergedTable, joinAll, mergeLeft, fillna, mean?,
    ordersW, deliveryW, routesW, costW, feedbackW]

theorem maxW_eq :
    max? (pipelineW.map (fun q => q.row.traffic_delay)) = some 5 := by
  rw [pipelineW, pipeline_traffic_col]
  norm_num [mergedTable, joinAll, mergeLeft, fillna, max?,
    ordersW, deliveryW, routesW, costW, feedbackW]

/-- Witness for C2 at the first sample row. -/
theorem deviation_is_or_of_flags_witness :
    pipelineW.getD 0 dummyRow ∈ pipelineW ∧
    (pipelineW.getD 0 dummyRow).deviation =
      ((pipelineW.getD 0 dummyRow).delay || (pipelineW.getD 0 dummyRow).damage ||
        (pipelineW.getD 0 dummyRow).cost_overrun) ∧
    ((pipelineW.getD 0 dummyRow).delay = true ↔
      (pipelineW.getD 0 dummyRow).row.promised_delivery_days <
        (pipelineW.getD 0 dummyRow).row.actual_delivery_days) :=
  ⟨getD_mem (by decide) dummyRow,
   (deviation_is_or_of_flags ordersW deliveryW routesW costW feedbackW _
      (getD_mem (by decide) dummyRow)).1,
   (deviation_is_or_of_flags ordersW deliveryW routesW costW feedbackW _
      (getD_mem (by decide) dummyRow)).2.1⟩

/-- Witness for C3 at the first sample row, median 75. -/
theorem value_leakage_contributions_witness :
    pipelineW.getD 0 dummyRow ∈ pipelineW ∧
    median? (pipelineW.map (fun q => q.row.delivery_cost)) = some 75 ∧
    (pipelineW.getD 0 dummyRow).value_leakage =
      (if (pipelineW.getD 0 dummyRow).delay = true then
        (1 / 10) * (pipelineW.getD 0 dummyRow).row.order_value else 0) +
      (if (pipelineW.getD 0 dummyRow).damage = true then
        (2 / 10) * (pipelineW.getD 0 dummyRow).row.order_value else 0) +
      (if (pipelineW.getD 0 dummyRow).cost_overrun = true then
        (pipelineW.getD 0 dummyRow).row.delivery_cost - 75 else 0) :=
  ⟨getD_mem (by decide) dummyRow, medianW_eq,
   value_leakage_contributions ordersW deliveryW routesW costW feedbackW _
     (getD_mem (by decide) dummyRow) 75 medianW_eq⟩

/-- Witness for C4 at the first sample row. -/
theorem value_leakage_nonneg_witness :
    (∀ x ∈ ordersW, 0 ≤ x.order_value) ∧
    pipelineW.getD 0 dummyRow ∈ pipelineW ∧
    0 ≤ (pipelineW.getD 0 dummyRow).value_leakage :=
  ⟨by decide, getD_mem (by decide) dummyRow,
   value_leakage_nonneg ordersW deliveryW routesW costW feedbackW (by decide) _
     (getD_mem (by decide) dummyRow)⟩

/-- Witness for C5 at the second sample row, whose `special_handling`
was zero-filled. -/
theorem root_cause_classification_witness :
    pipelineW.getD 1 dummyRow ∈ pipelineW ∧
    (pipelineW.getD 1 dummyRow).row.special_handling ≠ Val.str "None" ∧
    (pipelineW.getD 1 dummyRow).root_cause = "Handling Complexity" :=
  ⟨getD_mem (by decide) dummyRow, by decide,
   (root_cause_classification ordersW deliveryW routesW costW feedbackW _
      (getD_mem (by decide) dummyRow)).2 (by decide)⟩

/-- Witness for C6 on the sample tables (all four key columns are
duplicate-free). -/
theorem join_preserves_orders_and_fills_zero_witness :
    ((deliveryW.map DeliveryRow.order_id).Nodup ∧
     (routesW.map RouteRow.order_id).Nodup ∧
     (costW.map CostRow.order_id).Nodup ∧
     (feedbackW.map FeedbackRow.order_id).Nodup) ∧
    pipelineW.length = ordersW.length ∧
    pipelineW.map (fun p => (p.row.order_id, p.row.order_value, p.row.priority)) =
      ordersW.map (fun x => (x.order_id, x.order_value, x.priority)) :=
  ⟨⟨by decide, by decide, by decide, by decide⟩,
   (join_preserves_orders_and_fills_zero ordersW deliveryW routesW costW feedbackW
      (by decide) (by decide) (by decide) (by decide)).1,
   (join_preserves_orders_and_fills_zero ordersW deliveryW routesW costW feedbackW
      (by decide) (by decide) (by decide) (by decide)).2.1⟩

/-- Witness for C7 at the first sample row, mean 75 and max 5. -/
theorem risk_score_formula_witness :
    pipelineW.getD 0 dummyRow ∈ pipelineW ∧
    mean? (pipelineW.map (fun q => q.row.delivery_cost)) = some 75 ∧
    max? (pipelineW.map (fun q => q.row.traffic_delay)) = some 5 ∧
    (pipelineW.getD 0 dummyRow).risk_score = some (
      (4 / 10) * ((pipelineW.getD 0 dummyRow).row.actual_delivery_days /
        ((pipelineW.getD 0 dummyRow).row.promised_delivery_days + 1)) +
      (3 / 10) * ((pipelineW.getD 0 dummyRow).row.delivery_cost / (75 + 1)) +
      (3 / 10) * ((pipelineW.getD 0 dummyRow).row.traffic_delay / (5 + 1))) :=
  ⟨getD_mem (by decide) dummyRow, meanW_eq, maxW_eq,
   risk_score_formula ordersW deliveryW routesW costW feedbackW _
     (getD_mem (by decide) dummyRow) 75 5 meanW_eq maxW_eq⟩

/-- Witness for C10 at the second sample row: order 2 has no row in the
cost table, and is tagged "Handling Complexity". -/
theorem missing_cost_row_tagged_handling_witness :
    pipelineW.getD 1 dummyRow ∈ pipelineW ∧
    (∀ x ∈ costW, x.order_id ≠ (pipelineW.getD 1 dummyRow).row.order_id) ∧
    ((pipelineW.getD 1 dummyRow).row.special_handling = Val.num 0 ∧
     (pipelineW.getD 1 dummyRow).row.special_handling ≠ Val.str "None" ∧
     (pipelineW.getD 1 dummyRow).root_cause = "Handling Complexity") :=
  ⟨getD_mem (by decide) dummyRow, by decide,
   missing_cost_row_tagged_handling ordersW deliveryW routesW costW feedbackW _
     (getD_mem (by decide) dummyRow) (by decide)⟩
